import Mathlib

/-!
# Verification of the EarP voice-moderation bot (`src/index.js`)

Shallow embedding of the bot's state and event handlers, translated from
`src/index.js`:

* `calculateVolume` — the loudness estimator (lines 53-60).  JavaScript
  arithmetic is modelled over `ℝ`; on the only zero denominator that can
  arise (`data.length = 0`, where the numerator is also `0`), JavaScript's
  `0/0` is `NaN`, modelled here as `Option.none` propagated by `Option.map`.
* `BotState` — the module-level mutable state: `isMonitoring` (line 28),
  `lastMuteTime` (line 26), the `activeStreams` registry keyed by user id
  (line 24, modelled as a duplicate-free association list of keys), the
  tally of `destroy()` calls on each subject's audio stream, and the voice
  connection (owned by `@discordjs/voice`, referenced by guild).
* `onFrame` — the `pcmStream.on('data')` handler inside `processAudio`
  (lines 105-148).  The measured loudness is carried in the frame as a
  rational (`Frame.volume`), standing for the value `calculateVolume` yields
  on the frame's chunk; the decision logic compares it to the threshold
  exactly as the source does.  `destroy()` on a Node readable emits `close`,
  not `end`, so the disable path does not fire the `end` handler.
* `processAudio` — the registration part of `processAudio` (lines 79-97).
* `onDecoderError`, `onStreamEnd` — the `error`/`end` handlers
  (lines 150-165).
* `stopAllMonitoring` (lines 63-76), `joinAndMonitor` (lines 169-224,
  non-throwing path), the `voiceStateUpdate` cases (lines 227-280) and the
  text commands (lines 283-361).
* `step`/`Reachable` — the event dispatch loop; `Event.speaking` calls
  `processAudio` for an arbitrary user, a superset of the calls the
  `receiver.speaking` listener makes (it filters on the authorized user),
  so invariants proved over `Reachable` cover every actual run.
-/

namespace EarP

abbrev UserId := Nat
abbrev GuildId := Nat
abbrev ChannelId := Nat

/-- `DECIBEL_THRESHOLD = 42.9` (line 10), exact as a rational. -/
def DECIBEL_THRESHOLD : ℚ := 42.9

/-- `MUTE_COOLDOWN = 5000` milliseconds (line 11). -/
def MUTE_COOLDOWN : ℕ := 5000

/-- Sum of absolute sample values: the loop `sum += Math.abs(data[i])`
(lines 54-57). -/
def sumAbs (data : List ℤ) : ℤ := (data.map (fun x => |x|)).sum

/-- JavaScript division as it occurs in `calculateVolume` (line 58): the
denominator is `data.length`, and when it is `0` the numerator (a sum over
an empty loop) is also `0`, so the division is `0/0 = NaN`, modelled as
`none`.  `NaN` propagates through `+ 1`, `Math.log10` and `20 *`. -/
noncomputable def jsDiv (a b : ℝ) : Option ℝ := if b = 0 then none else some (a / b)

/-- `calculateVolume` (lines 53-60): `20 * Math.log10(sum/length + 1)`.
There is no empty-frame branch in the source; the `none` (NaN) outcome on an
empty frame comes from the division itself. -/
noncomputable def calculateVolume (data : List ℤ) : Option ℝ :=
  (jsDiv ((sumAbs data : ℤ) : ℝ) ((data.length : ℕ) : ℝ)).map
    (fun avg => 20 * Real.logb 10 (avg + 1))

/-- One decoded PCM chunk arriving at the `data` handler, together with the
ambient values the handler reads: `Date.now()` (`now`), the subject's
`user.voice.serverMute` flag, and the loudness `calculateVolume` measures on
the chunk (`volume`, carried as an exact rational so the threshold
comparison of line 140 is the decidable comparison the code performs).
`user` is the subject of the session whose closure the handler runs in. -/
structure Frame where
  user : UserId
  chunk : List ℤ
  volume : ℚ
  now : ℕ
  serverMute : Bool
deriving DecidableEq

/-- The module-level mutable state of `src/index.js`.
`registry` is the key set of the `activeStreams` map (line 24), in insertion
order.  `destroyCount u` tallies the `destroy()` calls made on user `u`'s
audio-subscription stream.  `connection` is the voice connection
`getVoiceConnection` would return, as `(guildId, channelId)`;
`connectionsCreated` counts `joinVoiceChannel` calls. -/
structure BotState where
  isMonitoring : Bool
  lastMuteTime : ℕ
  registry : List UserId
  destroyCount : UserId → ℕ
  connection : Option (GuildId × ChannelId)
  connectionsCreated : ℕ

/-- The state at module load (lines 24-28): no sessions, monitoring off,
`lastMuteTime = 0`, no connection. -/
def initState : BotState :=
  { isMonitoring := false
    lastMuteTime := 0
    registry := []
    destroyCount := fun _ => 0
    connection := none
    connectionsCreated := 0 }

/-- `stream.destroy()` on user `u`'s audio subscription. -/
def destroyStream (s : BotState) (u : UserId) : BotState :=
  { s with destroyCount := fun v => if v = u then s.destroyCount v + 1 else s.destroyCount v }

/-- The `pcmStream.on('data')` handler (lines 105-148).  Returns the new
state and whether a mute action was dispatched on this frame.  Branches in
source order: monitoring disabled → `audioStream.destroy()` and return
(no registry removal happens on this path: `destroy` emits `close`, and the
code only listens for `end`); empty chunk → return; subject already
server-muted → return; within cooldown → return; loudness above threshold →
set `lastMuteTime := now` (line 142) and then dispatch the mute (line 144).
Natural subtraction agrees with the JavaScript signed subtraction on the
cooldown test: when `now < lastMuteTime` both sides take the cooldown
branch. -/
def onFrame (s : BotState) (f : Frame) : BotState × Bool :=
  if s.isMonitoring = false then
    (destroyStream s f.user, false)
  else if f.chunk.length = 0 then
    (s, false)
  else if f.serverMute = true then
    (s, false)
  else if f.now - s.lastMuteTime < MUTE_COOLDOWN then
    (s, false)
  else if f.volume > DECIBEL_THRESHOLD then
    ({ s with lastMuteTime := f.now }, true)
  else
    (s, false)

/-- The `.catch` handler of the mute dispatch (lines 144-146): it only logs
the error; no state is touched, in particular `lastMuteTime` is not rolled
back. -/
def onMuteDispatchError (s : BotState) : BotState := s

/-- The registration part of `processAudio` (lines 79-97): no-op when
monitoring is disabled (line 80), no-op when a session already exists for
the user (line 88, the duplicate-start guard), otherwise subscribe and store
the stream under the user's id (line 97). -/
def processAudio (s : BotState) (u : UserId) : BotState :=
  if s.isMonitoring = false then s
  else if u ∈ s.registry then s
  else { s with registry := s.registry ++ [u] }

/-- The `pcmStream.on('error')` handler (lines 150-156): deletes the
registry entry if present.  It does not call `destroy()` on the audio
subscription. -/
def onDecoderError (s : BotState) (u : UserId) : BotState :=
  { s with registry := s.registry.erase u }

/-- The `audioStream.on('end')` handler (lines 159-165): deletes the
registry entry if present. -/
def onStreamEnd (s : BotState) (u : UserId) : BotState :=
  { s with registry := s.registry.erase u }

/-- `stopAllMonitoring` (lines 63-76): clears the monitoring flag, calls
`destroy()` on every registered stream, and clears the registry. -/
def stopAllMonitoring (s : BotState) : BotState :=
  { s.registry.foldl destroyStream s with isMonitoring := false, registry := [] }

/-- `joinAndMonitor` (lines 169-224), non-throwing path.  Already connected
to the exact target channel → set `isMonitoring := true` and return the
existing connection (lines 173-177).  Otherwise destroy any stale
connection, create a new one, and set `isMonitoring := true`
(lines 180-196). -/
def joinAndMonitor (s : BotState) (g : GuildId) (c : ChannelId) : BotState :=
  match s.connection with
  | some conn =>
      if conn = (g, c) then { s with isMonitoring := true }
      else
        { s with connection := some (g, c)
                 isMonitoring := true
                 connectionsCreated := s.connectionsCreated + 1 }
  | none =>
      { s with connection := some (g, c)
               isMonitoring := true
               connectionsCreated := s.connectionsCreated + 1 }

/-- `voiceStateUpdate` case 1 (lines 236-239): the subject joined a voice
channel. -/
def onSubjectJoined (s : BotState) (g : GuildId) (c : ChannelId) : BotState :=
  joinAndMonitor s g c

/-- `voiceStateUpdate` case 2 (lines 242-261): the subject left voice.
Destroy and deregister the subject's stream if present, then, if a
connection exists, `stopAllMonitoring` and destroy the connection. -/
def onSubjectLeft (s : BotState) (u : UserId) : BotState :=
  let s1 :=
    if u ∈ s.registry then { destroyStream s u with registry := s.registry.erase u } else s
  match s1.connection with
  | some _ => { stopAllMonitoring s1 with connection := none }
  | none => s1

/-- `voiceStateUpdate` case 3 (lines 264-278): the subject moved channels.
Destroy and deregister the subject's stream if present, then follow to the
new channel. -/
def onSubjectMoved (s : BotState) (u : UserId) (g : GuildId) (c : ChannelId) : BotState :=
  let s1 :=
    if u ∈ s.registry then { destroyStream s u with registry := s.registry.erase u } else s
  joinAndMonitor s1 g c

/-- `!pausemonitor` (lines 331-335): clears the flag, nothing else. -/
def onPauseCommand (s : BotState) : BotState := { s with isMonitoring := false }

/-- `!resumemonitor` (lines 337-341): sets the flag, nothing else. -/
def onResumeCommand (s : BotState) : BotState := { s with isMonitoring := true }

/-- `!EP_leave` (lines 296-312): if a connection exists, `stopAllMonitoring`
and destroy it. -/
def onLeaveCommand (s : BotState) : BotState :=
  match s.connection with
  | some _ => { stopAllMonitoring s with connection := none }
  | none => s

/-- The `connection.on('stateChange')` handler (lines 202-208): on
`disconnected`, `stopAllMonitoring`; the connection itself is gone. -/
def onDisconnected (s : BotState) : BotState :=
  { stopAllMonitoring s with connection := none }

/-- `message.content.toLowerCase()` as used by the command dispatch:
every character mapped to its lower-case form (the command literals are
ASCII, where JavaScript `toLowerCase` and `Char.toLower` agree). -/
def jsToLowerCase (str : String) : String := String.mk (str.data.map Char.toLower)

/-- The guard of the `!EP_join` branch (line 286):
`message.content.toLowerCase() === '!EP_join'`. -/
def matchesJoinCommand (content : String) : Bool :=
  jsToLowerCase content == "!EP_join"

/-- The guard of the `!EP_leave` branch (line 296). -/
def matchesLeaveCommand (content : String) : Bool :=
  jsToLowerCase content == "!EP_leave"

/-- The guard of the `!pausemonitor` branch (line 331). -/
def matchesPauseCommand (content : String) : Bool :=
  jsToLowerCase content == "!pausemonitor"

/-- The guard of the `!resumemonitor` branch (line 337). -/
def matchesResumeCommand (content : String) : Bool :=
  jsToLowerCase content == "!resumemonitor"

/-- One platform event, as dispatched by the discord.js runtime to the
handlers above. -/
inductive Event where
  | speaking (u : UserId)
  | frame (f : Frame)
  | decoderError (u : UserId)
  | streamEnd (u : UserId)
  | joined (g : GuildId) (c : ChannelId)
  | left (u : UserId)
  | moved (u : UserId) (g : GuildId) (c : ChannelId)
  | joinCommand (g : GuildId) (c : ChannelId)
  | leaveCommand
  | pauseCommand
  | resumeCommand
  | disconnected

/-- Event dispatch: each event runs the corresponding handler to
completion (the runtime is single-threaded). -/
def step (s : BotState) : Event → BotState
  | .speaking u => processAudio s u
  | .frame f => (onFrame s f).1
  | .decoderError u => onDecoderError s u
  | .streamEnd u => onStreamEnd s u
  | .joined g c => onSubjectJoined s g c
  | .left u => onSubjectLeft s u
  | .moved u g c => onSubjectMoved s u g c
  | .joinCommand g c => joinAndMonitor s g c
  | .leaveCommand => onLeaveCommand s
  | .pauseCommand => onPauseCommand s
  | .resumeCommand => onResumeCommand s
  | .disconnected => onDisconnected s

/-- States reachable from module load by any event sequence. -/
inductive Reachable : BotState → Prop where
  | init : Reachable initState
  | next {s : BotState} (h : Reachable s) (e : Event) : Reachable (step s e)

/-- Folding the `data` handler over a list of frames, counting dispatched
mute actions. -/
def runFrames : BotState → List Frame → BotState × ℕ
  | s, [] => (s, 0)
  | s, f :: fs =>
      let r := onFrame s f
      let rest := runFrames r.1 fs
      (rest.1, (if r.2 then 1 else 0) + rest.2)

/-! ## Helper lemmas -/

theorem onFrame_registry (s : BotState) (f : Frame) : (onFrame s f).1.registry = s.registry := by
  unfold onFrame destroyStream
  split_ifs <;> rfl

theorem onFrame_quiet (s : BotState) (f : Frame)
    (h : f.now < s.lastMuteTime + MUTE_COOLDOWN) :
    (onFrame s f).2 = false ∧ (onFrame s f).1.lastMuteTime = s.lastMuteTime := by
  unfold onFrame
  split_ifs with h1 h2 h3 h4 h5
  · exact ⟨rfl, rfl⟩
  · exact ⟨rfl, rfl⟩
  · exact ⟨rfl, rfl⟩
  · exact ⟨rfl, rfl⟩
  · exact absurd (by simp only [MUTE_COOLDOWN] at h ⊢; omega) h4
  · exact ⟨rfl, rfl⟩

theorem onFrame_mute_time (s : BotState) (f : Frame) (h : (onFrame s f).2 = true) :
    (onFrame s f).1.lastMuteTime = f.now := by
  unfold onFrame at h ⊢
  split_ifs at h ⊢
  simp_all

theorem runFrames_no_mute (s : BotState) (fs : List Frame)
    (h : ∀ f ∈ fs, f.now < s.lastMuteTime + MUTE_COOLDOWN) :
    (runFrames s fs).2 = 0 ∧ (runFrames s fs).1.lastMuteTime = s.lastMuteTime := by
  induction fs generalizing s with
  | nil => exact ⟨rfl, rfl⟩
  | cons f fs ih =>
      have hf := h f (List.mem_cons_self f fs)
      have hq := onFrame_quiet s f hf
      have ihq := ih (onFrame s f).1 (fun g hg => by
        rw [hq.2]; exact h g (List.mem_cons_of_mem f hg))
      unfold runFrames
      refine ⟨?_, ?_⟩
      · simp only [hq.1, if_false, Bool.false_eq_true, ite_false, ihq.1]
      · rw [ihq.2, hq.2]

theorem joinAndMonitor_registry (s : BotState) (g : GuildId) (c : ChannelId) :
    (joinAndMonitor s g c).registry = s.registry := by
  unfold joinAndMonitor
  split
  · split <;> rfl
  · rfl

theorem joinAndMonitor_monitoring (s : BotState) (g : GuildId) (c : ChannelId) :
    (joinAndMonitor s g c).isMonitoring = true := by
  unfold joinAndMonitor
  split
  · split <;> rfl
  · rfl

theorem stopAllMonitoring_registry (s : BotState) :
    (stopAllMonitoring s).registry = [] := rfl

theorem destroyStream_registry (s : BotState) (u : UserId) :
    (destroyStream s u).registry = s.registry := rfl

theorem processAudio_nodup (s : BotState) (u : UserId) (h : s.registry.Nodup) :
    (processAudio s u).registry.Nodup := by
  unfold processAudio
  split_ifs with h1 h2
  · exact h
  · exact h
  · simp only [List.nodup_append, List.nodup_cons, List.not_mem_nil, not_false_iff,
      List.nodup_nil, and_true, List.disjoint_singleton]
    exact ⟨h, trivial, h2⟩

theorem step_preserves_nodup (s : BotState) (e : Event) (h : s.registry.Nodup) :
    (step s e).registry.Nodup := by
  cases e with
  | speaking u => exact processAudio_nodup s u h
  | frame f => simpa only [step, onFrame_registry] using h
  | decoderError u => exact (List.erase_sublist u s.registry).nodup h
  | streamEnd u => exact (List.erase_sublist u s.registry).nodup h
  | joined g c => simpa only [step, onSubjectJoined, joinAndMonitor_registry] using h
  | left u =>
      simp only [step, onSubjectLeft]
      split
      · exact List.nodup_nil
      · split_ifs with hmem
        · exact (List.erase_sublist u s.registry).nodup h
        · exact h
  | moved u g c =>
      simp only [step, onSubjectMoved, joinAndMonitor_registry]
      split_ifs with hmem
      · exact (List.erase_sublist u s.registry).nodup h
      · exact h
  | joinCommand g c => simpa only [step, joinAndMonitor_registry] using h
  | leaveCommand =>
      simp only [step, onLeaveCommand]
      split
      · exact List.nodup_nil
      · exact h
  | pauseCommand => exact h
  | resumeCommand => exact h
  | disconnected => exact List.nodup_nil

theorem reachable_nodup (s : BotState) (h : Reachable s) : s.registry.Nodup := by
  induction h with
  | init => exact List.nodup_nil
  | next _ e ih => exact step_preserves_nodup _ e ih

/-! ## Shared concrete states for witnesses and counterexamples -/

/-- Monitoring just enabled (as by a successful join), no session yet. -/
def hotState : BotState := { initState with isMonitoring := true }

/-- A loud frame for the subject, outside the cooldown window. -/
def hotFrame : Frame :=
  { user := 7, chunk := [100], volume := 50, now := 6000, serverMute := false }

/-- Monitoring enabled with a mute just issued at `t = 1000`. -/
def muteWindowState : BotState :=
  { initState with isMonitoring := true, lastMuteTime := 1000 }

/-- A loud, unmuted frame for the subject at time `t`. -/
def loudFrame (t : ℕ) : Frame :=
  { user := 7, chunk := [100, 100], volume := 50, now := t, serverMute := false }

/-- Bot joined channel `2` of guild `1` and the subject (user `7`) started
speaking: one registered session. -/
def startedSessionState : BotState :=
  step (step initState (.joinCommand 1 2)) (.speaking 7)

/-! ## C1 — cooldown: at most one mute per cooldown window -/

/-- C1: for any sequence of decoded frames whose loudness all exceeds the
threshold and which all arrive within the cooldown interval (5000 ms) after
a prior mute (recorded in `lastMuteTime`), no further mute action is
dispatched during that window — so at most one mute action (the prior one)
per cooldown window — and whenever the frame handler dispatches a mute, the
state in which the dispatch happens already has `lastMuteTime` set to the
frame's current time (line 142 runs before line 144). -/
theorem cooldown_at_most_one_mute (s : BotState) (fs : List Frame)
    (_hloud : ∀ f ∈ fs, f.volume > DECIBEL_THRESHOLD)
    (hwin : ∀ f ∈ fs, f.now < s.lastMuteTime + MUTE_COOLDOWN) :
    (runFrames s fs).2 = 0 ∧
    ∀ (t : BotState) (g : Frame), (onFrame t g).2 = true →
      (onFrame t g).1.lastMuteTime = g.now :=
  ⟨(runFrames_no_mute s fs hwin).1, fun t g hg => onFrame_mute_time t g hg⟩

/-- Witness for C1 at a concrete window: a mute at `t = 1000`, three loud
frames at `t = 1500, 3000, 5999`, zero further mutes dispatched. -/
theorem cooldown_at_most_one_mute_witness :
    (∀ f ∈ [loudFrame 1500, loudFrame 3000, loudFrame 5999],
        f.volume > DECIBEL_THRESHOLD) ∧
    (∀ f ∈ [loudFrame 1500, loudFrame 3000, loudFrame 5999],
        f.now < muteWindowState.lastMuteTime + MUTE_COOLDOWN) ∧
    (runFrames muteWindowState [loudFrame 1500, loudFrame 3000, loudFrame 5999]).2 = 0 :=
  ⟨by norm_num [loudFrame, DECIBEL_THRESHOLD], by decide,
    (cooldown_at_most_one_mute muteWindowState
      [loudFrame 1500, loudFrame 3000, loudFrame 5999]
      (by norm_num [loudFrame, DECIBEL_THRESHOLD]) (by decide)).1⟩

/-! ## C5 — already-muted guard -/

/-- C5: for every decoded frame, if the subject's server-mute flag is true
then no mute action is dispatched, regardless of the frame's loudness
value (the guard of lines 128-131 precedes the threshold test). -/
theorem already_muted_no_mute (s : BotState) (f : Frame) (h : f.serverMute = true) :
    (onFrame s f).2 = false := by
  unfold onFrame
  split_ifs with h1 h2
  all_goals rfl

/-- Witness for C5: a very loud frame (`volume = 99`) with the subject
already server-muted dispatches nothing. -/
theorem already_muted_no_mute_witness :
    ({ user := 7, chunk := [100], volume := 99, now := 999999, serverMute := true } : Frame).serverMute = true ∧
    (onFrame hotState
      { user := 7, chunk := [100], volume := 99, now := 999999, serverMute := true }).2 = false :=
  ⟨rfl, already_muted_no_mute hotState _ rfl⟩

/-! ## C9 — a failed mute dispatch does not roll back the cooldown -/

/-- C9: the `.catch` handler of the mute dispatch only logs; after a failed
dispatch the state is unchanged, and in particular `lastMuteTime` keeps the
value set just before the dispatch (the frame's `now`), so the failed mute
still counts against the cooldown. -/
theorem failed_mute_dispatch_keeps_timestamp (s : BotState) (f : Frame)
    (h : (onFrame s f).2 = true) :
    onMuteDispatchError (onFrame s f).1 = (onFrame s f).1 ∧
    (onMuteDispatchError (onFrame s f).1).lastMuteTime = f.now :=
  ⟨rfl, onFrame_mute_time s f h⟩

/-- Witness for C9: a frame at `t = 6000` triggers a mute; after the failure
callback runs, `lastMuteTime` is still `6000`. -/
theorem failed_mute_dispatch_keeps_timestamp_witness :
    (onFrame hotState hotFrame).2 = true ∧
    (onMuteDispatchError (onFrame hotState hotFrame).1).lastMuteTime = 6000 :=
  ⟨by norm_num [onFrame, hotState, hotFrame, initState, MUTE_COOLDOWN, DECIBEL_THRESHOLD],
    (failed_mute_dispatch_keeps_timestamp hotState hotFrame
      (by norm_num [onFrame, hotState, hotFrame, initState, MUTE_COOLDOWN, DECIBEL_THRESHOLD])).2⟩

/-! ## C2 — at most one session per subject; start is idempotent -/

/-- C2: in every reachable state the `activeStreams` registry holds at most
one session per subject; calling `processAudio` twice in a row for the same
subject yields exactly one registered session (when monitoring is enabled),
the duplicate call is a guarded no-op returning the state unchanged (never
an error — `processAudio` is total), and `processAudio` is a no-op when
monitoring is globally disabled. -/
theorem start_idempotent_one_session (s : BotState) (u : UserId)
    (hreach : Reachable s) :
    (∀ v : UserId, s.registry.count v ≤ 1) ∧
    processAudio (processAudio s u) u = processAudio s u ∧
    (s.isMonitoring = true →
      (processAudio (processAudio s u) u).registry.count u = 1) ∧
    (s.isMonitoring = false → processAudio s u = s) := by
  have hnd := reachable_nodup s hreach
  refine ⟨fun v => List.nodup_iff_count_le_one.mp hnd v, ?_, ?_, ?_⟩
  · unfold processAudio
    split_ifs with h1 h2 <;> simp_all
  · intro hmon
    by_cases hmem : u ∈ s.registry
    · have h1 : processAudio s u = s := by
        unfold processAudio
        split_ifs <;> simp_all
      rw [h1, h1]
      exact le_antisymm (List.nodup_iff_count_le_one.mp hnd u)
        (List.count_pos_iff.mpr hmem)
    · have h1 : processAudio s u = { s with registry := s.registry ++ [u] } := by
        unfold processAudio
        split_ifs <;> simp_all
      have h2 : processAudio { s with registry := s.registry ++ [u] } u =
          { s with registry := s.registry ++ [u] } := by
        unfold processAudio
        split_ifs with g1 g2 <;> simp_all
      rw [h1, h2]
      simp [List.count_append, List.count_eq_zero_of_not_mem hmem]
  · intro hmon
    unfold processAudio
    split_ifs
    simp_all

/-- Witness for C2 at the reachable state just after a join (monitoring
enabled, empty registry) and subject `7`: two `processAudio` calls register
exactly one session. -/
theorem start_idempotent_one_session_witness :
    Reachable (step initState (.joinCommand 1 2)) ∧
    (step initState (.joinCommand 1 2)).isMonitoring = true ∧
    (processAudio (processAudio (step initState (.joinCommand 1 2)) 7) 7).registry.count 7 = 1 :=
  ⟨Reachable.next Reachable.init _, by decide,
    (start_idempotent_one_session (step initState (.joinCommand 1 2)) 7
      (Reachable.next Reachable.init _)).2.2.1 (by decide)⟩

/-! ## C3 — global disable propagates to the in-flight session -/

/-- `startedSessionState` after `!pausemonitor`: monitoring disabled, the
subject's session still registered and its stream not yet destroyed. -/
def pausedSessionState : BotState := step startedSessionState .pauseCommand

/-- A frame for the subject arriving after the pause. -/
def pausedFrame : Frame :=
  { user := 7, chunk := [100], volume := 50, now := 100, serverMute := false }

/-- Counterexample to C3 as stated: after monitoring is disabled, the next
decoded frame destroys the subject's audio stream (`destroyCount` becomes
`1`), but the session is *not* removed from the `activeStreams` registry —
the entry for user `7` survives, because the disable path calls only
`audioStream.destroy()` and the deletion lives in the `end` handler, which
`destroy()` does not fire (a destroyed Node readable emits `close`, not
`end`). -/
theorem disable_frame_does_not_deregister :
    (step pausedSessionState (.frame pausedFrame)).destroyCount 7 = 1 ∧
    (step pausedSessionState (.frame pausedFrame)).registry = [7] := by decide

/-- C3 (amended): if monitoring is disabled while a session is active, the
next decoded frame destroys that session's audio stream (terminating audio
processing) and dispatches nothing, and no new session can be started until
monitoring is re-enabled; the registry entry, however, is not removed on
this path — it persists until a stream `end`/`error` event or
`stopAllMonitoring`. -/
theorem disable_propagates_within_one_frame (s : BotState) (f : Frame)
    (hmon : s.isMonitoring = false) :
    (onFrame s f).1.destroyCount f.user = s.destroyCount f.user + 1 ∧
    (onFrame s f).2 = false ∧
    (onFrame s f).1.registry = s.registry ∧
    ∀ u : UserId, processAudio s u = s := by
  unfold onFrame
  rw [if_pos hmon]
  refine ⟨?_, rfl, rfl, fun u => ?_⟩
  · simp [destroyStream]
  · unfold processAudio
    rw [if_pos hmon]

/-- Witness for the amended C3 at the concrete paused session. -/
theorem disable_propagates_within_one_frame_witness :
    pausedSessionState.isMonitoring = false ∧
    (onFrame pausedSessionState pausedFrame).1.destroyCount pausedFrame.user =
      pausedSessionState.destroyCount pausedFrame.user + 1 ∧
    (onFrame pausedSessionState pausedFrame).2 = false ∧
    processAudio pausedSessionState 9 = pausedSessionState :=
  ⟨by decide, (disable_propagates_within_one_frame _ pausedFrame (by decide)).1,
    (disable_propagates_within_one_frame _ pausedFrame (by decide)).2.1,
    (disable_propagates_within_one_frame pausedSessionState pausedFrame (by decide)).2.2.2 9⟩

/-! ## C4 — every termination path releases the stream exactly once -/

/-- `startedSessionState` after the decoder emits `error`: the handler of
lines 150-156 removes the registry entry but never calls `destroy()` on the
audio subscription. -/
def erroredSessionState : BotState := step startedSessionState (.decoderError 7)

/-- C4 fails on the code (code bug): on the decoder-error termination path
the session is deregistered (`registry = []`) while the subject's
audio-subscription stream has been released zero times, not exactly once —
the `error` handler deletes the map entry but never destroys the stream.
(The global-disable path has the dual defect: it destroys the stream but
leaves the registry entry.) -/
theorem decoder_error_releases_zero_times :
    startedSessionState.registry = [7] ∧
    startedSessionState.destroyCount 7 = 0 ∧
    erroredSessionState.registry = [] ∧
    erroredSessionState.destroyCount 7 = 0 := by decide

/-! ## C6 — loudness formula, non-negative, zero on silence -/

/-- C6: for every non-empty frame the loudness estimator returns
`20 * log10(mean(|sample|) + 1)` — a real (hence finite) value that is
non-negative, since the mean of absolute samples is `≥ 0` and the `+1`
offset puts the `log10` argument at `≥ 1`; for an all-zero frame it returns
exactly `20 * log10(1) = 0`. -/
theorem calculateVolume_formula_nonneg (data : List ℤ) (h : data ≠ []) :
    calculateVolume data =
      some (20 * Real.logb 10 (((sumAbs data : ℤ) : ℝ) / ((data.length : ℕ) : ℝ) + 1)) ∧
    (∀ r : ℝ, calculateVolume data = some r → 0 ≤ r) ∧
    ((∀ x ∈ data, x = 0) → calculateVolume data = some 0) := by
  have hlen0 : data.length ≠ 0 := fun hl => h (List.length_eq_zero.mp hl)
  have hlenR : ((data.length : ℕ) : ℝ) ≠ 0 := Nat.cast_ne_zero.mpr hlen0
  have heq : calculateVolume data =
      some (20 * Real.logb 10 (((sumAbs data : ℤ) : ℝ) / ((data.length : ℕ) : ℝ) + 1)) := by
    unfold calculateVolume jsDiv
    rw [if_neg hlenR]
    rfl
  refine ⟨heq, ?_, ?_⟩
  · intro r hr
    rw [heq, Option.some_inj] at hr
    have hsum : (0 : ℝ) ≤ ((sumAbs data : ℤ) : ℝ) := by
      have hz : (0 : ℤ) ≤ sumAbs data := by
        apply List.sum_nonneg
        intro x hx
        obtain ⟨y, _, rfl⟩ := List.mem_map.mp hx
        exact abs_nonneg y
      exact_mod_cast hz
    have havg : (0 : ℝ) ≤ ((sumAbs data : ℤ) : ℝ) / ((data.length : ℕ) : ℝ) :=
      div_nonneg hsum (Nat.cast_nonneg _)
    have hlog : 0 ≤ Real.logb 10
        (((sumAbs data : ℤ) : ℝ) / ((data.length : ℕ) : ℝ) + 1) :=
      Real.logb_nonneg (by norm_num) (by linarith)
    rw [← hr]
    linarith
  · intro hz
    have hs : sumAbs data = 0 := by
      unfold sumAbs
      apply List.sum_eq_zero
      intro x hx
      obtain ⟨y, hy, rfl⟩ := List.mem_map.mp hx
      simp [hz y hy]
    rw [heq, hs]
    simp [Real.logb_one]

/-- Witness for C6: the one-sample silent frame `[0]` yields loudness `0`. -/
theorem calculateVolume_formula_nonneg_witness :
    ([0] : List ℤ) ≠ [] ∧ calculateVolume [0] = some 0 :=
  ⟨by decide, (calculateVolume_formula_nonneg [0] (by decide)).2.2 (by decide)⟩

/-! ## C7 — empty frames -/

/-- Counterexample to C7 as stated: the loudness estimator itself
(`calculateVolume`) has no zero-length guard.  Applied to an empty frame,
its division step is `0/0` — a division by zero, yielding JavaScript `NaN`
(modelled `none`), which then propagates through the formula — not a
guarded "no data" sentinel returned *instead of* computing. -/
theorem estimator_empty_frame_divides_by_zero :
    jsDiv ((sumAbs ([] : List ℤ) : ℤ) : ℝ) ((List.length ([] : List ℤ) : ℕ) : ℝ) = none ∧
    calculateVolume ([] : List ℤ) = none := by
  constructor
  · simp [jsDiv]
  · simp [calculateVolume, jsDiv]

/-- An empty decoded chunk for the subject. -/
def emptyFrame : Frame :=
  { user := 7, chunk := [], volume := 50, now := 6000, serverMute := false }

/-- C7 (amended): the empty-frame guard lives in the frame handler
(lines 112-115), not in the estimator: with monitoring enabled, an empty
chunk is skipped before any loudness is computed — state unchanged and no
mute dispatched, whatever loudness value the frame carries — so zero-length
input never reaches the estimator during frame processing and nothing
throws; `calculateVolume` itself, applied directly to an empty frame,
performs the zero-length division (NaN), not a guarded sentinel. -/
theorem empty_frame_skipped (s : BotState) (f : Frame)
    (hchunk : f.chunk = []) (hmon : s.isMonitoring = true) :
    onFrame s f = (s, false) := by
  have h1 : ¬(s.isMonitoring = false) := by simp [hmon]
  have h2 : f.chunk.length = 0 := by simp [hchunk]
  unfold onFrame
  rw [if_neg h1, if_pos h2]

/-- Witness for the amended C7 at a concrete empty frame. -/
theorem empty_frame_skipped_witness :
    emptyFrame.chunk = [] ∧ hotState.isMonitoring = true ∧
    onFrame hotState emptyFrame = (hotState, false) :=
  ⟨rfl, rfl, empty_frame_skipped hotState emptyFrame rfl rfl⟩

/-! ## C8 — join/leave commands are dead: lower-cased content is compared
to a mixed-case literal -/

/-- C8 fails on the code (code bug): the `!EP_join` and `!EP_leave`
branches compare `message.content.toLowerCase()` to literals containing the
upper-case letters `EP` (lines 286 and 296), so no spelling of the command
— not even the exact literal `"!EP_join"` — ever matches, and the join and
leave handlers never fire.  The guards of the all-lower-case commands, by
contrast, are genuinely case-insensitive (`!PauseMonitor` matches
`!pausemonitor`), which shows the intent the two mixed-case literals
break. -/
theorem join_leave_commands_never_match :
    matchesJoinCommand "!EP_join" = false ∧
    matchesJoinCommand "!ep_join" = false ∧
    matchesJoinCommand "!Ep_Join" = false ∧
    matchesJoinCommand "!EP_JOIN" = false ∧
    matchesLeaveCommand "!EP_leave" = false ∧
    matchesLeaveCommand "!ep_leave" = false ∧
    matchesLeaveCommand "!EP_LEAVE" = false ∧
    matchesPauseCommand "!PauseMonitor" = true ∧
    matchesResumeCommand "!RESUMEMONITOR" = true := by decide

/-! ## C10 — joinAndMonitor always re-enables monitoring -/

/-- C10: every `joinAndMonitor` call that reaches a connection sets the
global monitoring flag to `true`, including the idempotent no-op path taken
when already connected to the exact target channel (which returns the
existing connection, changing nothing else); consequently a join presence
event for the subject, arriving while the bot is already connected to the
target channel, silently re-enables monitoring that was paused via
`!pausemonitor` — without creating a new connection. -/
theorem joinAndMonitor_reenables_monitoring (s : BotState) (g : GuildId) (c : ChannelId) :
    (joinAndMonitor s g c).isMonitoring = true ∧
    (s.connection = some (g, c) →
      joinAndMonitor s g c = { s with isMonitoring := true }) ∧
    (s.connection = some (g, c) →
      (step (step s .pauseCommand) (.joined g c)).isMonitoring = true ∧
      (step (step s .pauseCommand) (.joined g c)).connectionsCreated = s.connectionsCreated ∧
      (step (step s .pauseCommand) (.joined g c)).connection = s.connection) := by
  refine ⟨joinAndMonitor_monitoring s g c, ?_, ?_⟩
  · intro hconn
    unfold joinAndMonitor
    rw [hconn]
    simp
  · intro hconn
    simp only [step, onSubjectJoined, onPauseCommand]
    unfold joinAndMonitor
    rw [hconn]
    simp

/-- Witness for C10: bot connected to channel `2` of guild `1`, monitoring
paused; a subject-join presence event for that same channel re-enables
monitoring with no new connection. -/
theorem joinAndMonitor_reenables_monitoring_witness :
    ({ initState with connection := some (1, 2) } : BotState).connection = some (1, 2) ∧
    (step (step ({ initState with connection := some (1, 2) } : BotState) .pauseCommand)
        (.joined 1 2)).isMonitoring = true ∧
    (step (step ({ initState with connection := some (1, 2) } : BotState) .pauseCommand)
        (.joined 1 2)).connectionsCreated =
      ({ initState with connection := some (1, 2) } : BotState).connectionsCreated :=
  ⟨rfl,
    ((joinAndMonitor_reenables_monitoring
      { initState with connection := some (1, 2) } 1 2).2.2 rfl).1,
    ((joinAndMonitor_reenables_monitoring
      { initState with connection := some (1, 2) } 1 2).2.2 rfl).2.1⟩

end EarP
